import Mathlib

/-!
Shallow embedding of the goLogger package (src/logger.go): a structured-log
fan-out layer over Go's log/slog.  The fan-out handler (`customHandler`)
forwards every record to a base handler and spawns one goroutine per attached
sink (`LogTarget`); sink errors are pushed on a shared error channel, drained
by a background loop that is gated by a leaky-bucket counter
(`targetLogCounter`).  The reference sink (`newRelicLogger`) builds a flat
JSON payload from the record and POSTs it.

Go machine-level notions are modelled as follows:
- an `error` value is an opaque token (`GoErr := String`); `nil` is `none`;
- a possibly-nil Go slice is `Option (List _)`;
- a channel is represented by its construction-time capacity
  (`make(chan error)` has capacity 0) plus, separately, the send policy of
  the one send site in the code;
- goroutine spawning is instrumented: `Handle` returns, besides the value the
  Go function returns, the list of spawned sink sends, the list of errors
  those sends push on the error channel, and the list of synchronous calls
  delegated to the base handler;
- the environment of an HTTP POST (outcomes of `http.NewRequest`,
  `json.Marshal`, `client.Do`) is an explicit input (`HttpEnv`);
- `runtime.CallersFrames` resolution of a program counter to a frame is an
  explicit input `resolve : Nat → String × Int`.
-/

/-- An opaque Go `error` value; `nil` is represented by `none : Option GoErr`. -/
abbrev GoErr := String

/-- An opaque `context.Context` token. -/
abbrev Context := Nat

/-- An opaque `io.Writer` token. -/
abbrev GoWriter := Nat

/-- The writer `os.Stdout` used as default in `New` (logger.go:30). -/
def osStdout : GoWriter := 0

/-- A `slog.Level` (an integer in Go's slog). -/
abbrev Level := Int

/-- A value stored in the flat payload map built by `SendLog`
(logger.go:121-134), or carried by a record attribute. -/
inductive JValue where
  | vStr (s : String)
  | vInt (n : Int)
  | vTime (t : Int)
  | vLevelName (l : Level)
  | vSource (function : String) (line : Int)
  deriving DecidableEq, Repr

/-- A `slog.Attr`: a key paired with a value. -/
abbrev Attr := String × JValue

/-- A `slog.Record`: timestamp (unix seconds), message, level, captured
program counter and the ordered attribute list. -/
structure Record where
  time : Int
  message : String
  level : Level
  pc : Nat
  attrs : List Attr
  deriving DecidableEq, Repr

/-- A `LogTarget` (logger.go:22-24) identified with the observable behaviour
of its `SendLog` method: the error (or `nil`) its send produces for a given
context and record. -/
abbrev LogTarget := Context → Record → Option GoErr

/-- The operations of the wrapped `slog.Handler` interface, abstract in the
base handler's representation type `H`. -/
structure SlogHandlerOps (H : Type) where
  enabled : H → Context → Level → Bool
  handle : H → Context → Record → Option GoErr
  withAttrs : H → List Attr → H
  withGroup : H → String → H

/-- A Go channel of `error`, represented by its buffer capacity fixed at
construction. -/
structure ErrChan where
  capacity : Nat
  deriving DecidableEq, Repr

/-- The policy of a channel-send site: a plain `ch <- v` statement blocks;
a `select` with a `default` branch does not. -/
inductive ChanSendPolicy where
  | blocking
  | nonBlockingSelect
  deriving DecidableEq, Repr

/-- The send `h.errorChannel <- err` at logger.go:70 is a plain, unconditional
channel send with no `select`/`default`, hence blocking. -/
def customHandler.errorPushPolicy : ChanSendPolicy := ChanSendPolicy.blocking

/-- The `customHandler` struct (logger.go:52-56): base handler, possibly-nil
slice of log targets, and the shared error channel. -/
structure CustomHandler (H : Type) where
  handler : H
  logTargets : Option (List LogTarget)
  errorChannel : ErrChan

/-- `customHandler.Enabled` (logger.go:59-61): delegates to the base handler. -/
def customHandler.Enabled {H : Type} (ops : SlogHandlerOps H) (h : CustomHandler H)
    (ctx : Context) (level : Level) : Bool :=
  ops.enabled h.handler ctx level

/-- The instrumented outcome of one `customHandler.Handle` call:
`sinkTaskSends` lists, per spawned goroutine, the outcome of its
`target.SendLog(ctx, r)`; `pushedErrors` the non-nil errors those goroutines
send on the error channel; `baseCalls` the synchronous delegations to the base
handler made during the call; `result` the value `Handle` returns. -/
structure HandleOutput where
  sinkTaskSends : List (Option GoErr)
  pushedErrors : List GoErr
  baseCalls : List (Context × Record)
  result : Option GoErr
  deriving DecidableEq

/-- `customHandler.Handle` (logger.go:64-76): if the target slice is non-nil,
spawn one goroutine per target which calls `target.SendLog(ctx, r)` and pushes
the error on the channel when non-nil; then synchronously delegate to the base
handler and return its result unchanged. -/
def customHandler.Handle {H : Type} (ops : SlogHandlerOps H) (h : CustomHandler H)
    (ctx : Context) (r : Record) : HandleOutput :=
  let sends : List (Option GoErr) :=
    match h.logTargets with
    | none => []
    | some targets => targets.map (fun target => target ctx r)
  { sinkTaskSends := sends
  , pushedErrors := sends.filterMap id
  , baseCalls := [(ctx, r)]
  , result := ops.handle h.handler ctx r }

/-- `customHandler.WithAttrs` (logger.go:79-85): a new `customHandler` whose
base is `h.handler.WithAttrs(attrs)`, sharing the target slice and channel. -/
def customHandler.WithAttrs {H : Type} (ops : SlogHandlerOps H) (h : CustomHandler H)
    (attrs : List Attr) : CustomHandler H :=
  { handler := ops.withAttrs h.handler attrs
  , logTargets := h.logTargets
  , errorChannel := h.errorChannel }

/-- `customHandler.WithGroup` (logger.go:88-94): a new `customHandler` whose
base is `h.handler.WithGroup(name)`, sharing the target slice and channel. -/
def customHandler.WithGroup {H : Type} (ops : SlogHandlerOps H) (h : CustomHandler H)
    (name : String) : CustomHandler H :=
  { handler := ops.withGroup h.handler name
  , logTargets := h.logTargets
  , errorChannel := h.errorChannel }

/-- The base `slog.JSONHandler` created by `New` and the derived handlers its
`WithAttrs`/`WithGroup` produce, as a free structure. -/
inductive JSONHandler where
  | base (writer : GoWriter) (addSource : Bool)
  | withAttrs (h : JSONHandler) (attrs : List Attr)
  | withGroup (h : JSONHandler) (name : String)
  deriving DecidableEq

/-- The handler wiring done by `New` (logger.go:28-35): default nil writer to
`os.Stdout`, build the JSON base handler with `AddSource: true`, make an
unbuffered error channel (`make(chan error)`, capacity 0) and assemble the
`customHandler`.  The background error-consumption loop it also starts is
modelled separately by `errorLoopStep`. -/
def New (writer : Option GoWriter) (logTargets : Option (List LogTarget)) :
    CustomHandler JSONHandler :=
  let w := match writer with
    | none => osStdout
    | some w => w
  { handler := JSONHandler.base w true
  , logTargets := logTargets
  , errorChannel := { capacity := 0 } }

/-- `targetLogCounter.increment` (logger.go:181-185), on the guarded integer. -/
def targetLogCounter.increment (c : Int) : Int := c + 1

/-- `targetLogCounter.decrement` (logger.go:188-192), on the guarded integer. -/
def targetLogCounter.decrement (c : Int) : Int := c - 1

/-- `targetLogCounter.get` (logger.go:195-199), on the guarded integer. -/
def targetLogCounter.get (c : Int) : Int := c

/-- The initial counter value set by `newTargetLogCounter` (logger.go:168). -/
def newTargetLogCounter.init : Int := 0

/-- One wake-up of the decay goroutine started by `newTargetLogCounter`
(logger.go:169-176): decrement the counter if it is currently positive. -/
def decayLoopIteration (c : Int) : Int :=
  if targetLogCounter.get c > 0 then targetLogCounter.decrement c else c

/-- Counter values reachable from the initial value under the two mutations
the program performs: an increment by the error-consumption loop, or one decay
wake-up. -/
inductive CounterReachable : Int → Prop where
  | init : CounterReachable newTargetLogCounter.init
  | inc {v : Int} : CounterReachable v → CounterReachable (targetLogCounter.increment v)
  | decay {v : Int} : CounterReachable v → CounterReachable (decayLoopIteration v)

/-- A local error-level entry written through the logger by the consumption
loop: the fixed message tag and the attached error (logger.go:43). -/
abbrev LocalErrorEntry := String × GoErr

/-- State of the error-consumption loop: the rate-limiter counter and the
accumulated local error-level entries it has written. -/
structure ConsumerState where
  counter : Int
  written : List LocalErrorEntry
  deriving DecidableEq, Repr

/-- One iteration of the error-consumption loop started by `New`
(logger.go:37-47) on the error `err` received from the channel: if the
counter exceeds 5, drop; otherwise, if `err` is non-nil, write the tagged
local error entry and increment the counter. -/
def errorLoopStep (s : ConsumerState) (err : Option GoErr) : ConsumerState :=
  if targetLogCounter.get s.counter > 5 then s
  else
    match err with
    | some e =>
        { counter := targetLogCounter.increment s.counter
        , written := s.written ++ [("Error in custom handler", e)] }
    | none => s

/-- A flat Go `map[string]interface{}` payload, as the function from keys to
the value currently stored (assignment overrides). -/
abbrev GoMap := String → Option JValue

/-- Go map assignment `m[k] = v`. -/
def mapSet (m : GoMap) (k : String) (v : JValue) : GoMap :=
  fun key => if key = k then some v else m key

/-- The empty Go map produced by `make(map[string]interface{}, _)`. -/
def emptyMap : GoMap := fun _ => none

/-- `http.StatusAccepted`, the one status code `SendLog` accepts
(logger.go:151). -/
def httpStatusAccepted : Nat := 202

/-- The payload-building prefix of `newRelicLogger.SendLog`
(logger.go:119-134): resolve the record's program counter to a frame, then
set `time`, `message`, `level`, `timestamp`, `logtype`, `source`, and finally
merge every record attribute into the same map. -/
def newRelicLogger.sendLogFields (resolve : Nat → String × Int) (r : Record) : GoMap :=
  let f := resolve r.pc
  let fields := mapSet emptyMap "time" (JValue.vTime r.time)
  let fields := mapSet fields "message" (JValue.vStr r.message)
  let fields := mapSet fields "level" (JValue.vLevelName r.level)
  let fields := mapSet fields "timestamp" (JValue.vInt r.time)
  let fields := mapSet fields "logtype" (JValue.vStr "application")
  let fields := mapSet fields "source" (JValue.vSource f.1 f.2)
  r.attrs.foldl (fun acc a => mapSet acc a.1 a.2) fields

/-- The environment of the network half of `SendLog`: the outcomes of
`http.NewRequest` (logger.go:135), `json.Marshal` (logger.go:141), and
`client.Do` (logger.go:146, carrying the response status code on success). -/
structure HttpEnv where
  reqErr : Option GoErr
  marshalErr : Option GoErr
  doResult : Except GoErr Nat
  deriving Repr

/-- The error-path suffix of `newRelicLogger.SendLog` (logger.go:135-154):
return the first collaborator error unchanged; otherwise fail with
`unexpected status code: %d` unless the status is `http.StatusAccepted`. -/
def newRelicLogger.sendLogResult (env : HttpEnv) : Option GoErr :=
  match env.reqErr with
  | some e => some e
  | none =>
    match env.marshalErr with
    | some e => some e
    | none =>
      match env.doResult with
      | Except.error e => some e
      | Except.ok status =>
          if status ≠ httpStatusAccepted then
            some ("unexpected status code: " ++ toString status)
          else none

/-- `newRelicLogger.SendLog` (logger.go:118-155) as a whole: the payload it
builds and the error it returns under environment `env`. -/
def newRelicLogger.SendLog (resolve : Nat → String × Int) (env : HttpEnv)
    (r : Record) : GoMap × Option GoErr :=
  (newRelicLogger.sendLogFields resolve r, newRelicLogger.sendLogResult env)

/-- The six payload keys `SendLog` sets before merging attributes. -/
def reservedPayloadKeys : List String :=
  ["time", "message", "level", "timestamp", "logtype", "source"]

/-! ## Helper lemmas -/

lemma mapSet_same (m : GoMap) (k : String) (v : JValue) : mapSet m k v k = some v := by
  simp [mapSet]

lemma mapSet_other (m : GoMap) (k k' : String) (v : JValue) (h : k' ≠ k) :
    mapSet m k v k' = m k' := by
  simp [mapSet, h]

lemma mapSet_isSome (m : GoMap) (k k' : String) (v : JValue) (h : (m k').isSome) :
    ((mapSet m k v) k').isSome := by
  unfold mapSet
  split
  · rfl
  · exact h

lemma foldl_mapSet_no_key (l : List Attr) (m : GoMap) (k : String)
    (h : ∀ a ∈ l, a.1 ≠ k) :
    (l.foldl (fun acc a => mapSet acc a.1 a.2) m) k = m k := by
  induction l generalizing m with
  | nil => rfl
  | cons a l ih =>
    simp only [List.foldl_cons]
    rw [ih _ (fun b hb => h b (List.mem_cons_of_mem a hb))]
    exact mapSet_other m a.1 k a.2 (Ne.symm (h a (List.mem_cons_self a l)))

lemma counterReachable_nonneg (v : Int) (h : CounterReachable v) : 0 ≤ v := by
  induction h with
  | init => norm_num [newTargetLogCounter.init]
  | inc _ ih =>
    simp only [targetLogCounter.increment]
    omega
  | decay _ ih =>
    simp only [decayLoopIteration, targetLogCounter.get, targetLogCounter.decrement]
    split <;> omega

/-! ## Claim theorems -/

/-- C1: for every record and every configuration of attached sinks, `Handle`
delivers the record to the base handler exactly once, synchronously within the
call, and returns the base handler's result unchanged, regardless of the
outcomes of the sink sends (the handler `h`, including its target list and the
targets' send behaviour, is universally quantified). -/
theorem handle_base_once_result_unchanged {H : Type} (ops : SlogHandlerOps H)
    (h : CustomHandler H) (ctx : Context) (r : Record) :
    (customHandler.Handle ops h ctx r).baseCalls = [(ctx, r)] ∧
    (customHandler.Handle ops h ctx r).result = ops.handle h.handler ctx r :=
  ⟨rfl, rfl⟩

/-- C3: two-run noninterference over sink behaviour — the value returned by
`Handle` is identical for any two sink configurations (which subsume success,
failure and latency of every send), all else equal. -/
theorem handle_result_sink_noninterference {H : Type} (ops : SlogHandlerOps H)
    (base : H) (ch : ErrChan) (targets₁ targets₂ : Option (List LogTarget))
    (ctx : Context) (r : Record) :
    (customHandler.Handle ops ⟨base, targets₁, ch⟩ ctx r).result =
      (customHandler.Handle ops ⟨base, targets₂, ch⟩ ctx r).result :=
  rfl

/-- C2: one iteration of the error-consumption loop: with the counter at
`v ≤ 5` and a non-nil error, the tagged local entry is written and the counter
becomes `v + 1`; with `v > 5` the error (nil or not) is dropped and the state
is unchanged. -/
theorem errorLoop_rate_limit (v : Int) (written : List LocalErrorEntry)
    (e : GoErr) (err : Option GoErr) :
    (v ≤ 5 → errorLoopStep ⟨v, written⟩ (some e) =
      ⟨v + 1, written ++ [("Error in custom handler", e)]⟩) ∧
    (5 < v → errorLoopStep ⟨v, written⟩ err = ⟨v, written⟩) := by
  constructor
  · intro hv
    simp [errorLoopStep, targetLogCounter.get, targetLogCounter.increment, not_lt.mpr hv]
  · intro hv
    simp [errorLoopStep, targetLogCounter.get, hv]

theorem errorLoop_rate_limit_w :
    ((3 : Int) ≤ 5 ∧ errorLoopStep ⟨3, []⟩ (some "boom") =
      ⟨4, [("Error in custom handler", "boom")]⟩) ∧
    ((5 : Int) < 6 ∧ errorLoopStep ⟨6, []⟩ (some "boom") = ⟨6, []⟩) :=
  ⟨⟨by norm_num, (errorLoop_rate_limit 3 [] "boom" (some "boom")).1 (by norm_num)⟩,
   ⟨by norm_num, (errorLoop_rate_limit 6 [] "boom" (some "boom")).2 (by norm_num)⟩⟩

/-- C4: one decay wake-up decrements a positive counter by one and leaves a
zero counter at zero; and every counter value reachable from the initial value
under the program's mutations (increments and decay wake-ups) is nonnegative. -/
theorem decay_step_and_nonneg (v : Int) :
    (0 < v → decayLoopIteration v = v - 1) ∧
    (v = 0 → decayLoopIteration v = 0) ∧
    (CounterReachable v → 0 ≤ v) := by
  refine ⟨?_, ?_, counterReachable_nonneg v⟩
  · intro hv
    simp [decayLoopIteration, targetLogCounter.get, targetLogCounter.decrement, hv]
  · intro hv
    simp [decayLoopIteration, targetLogCounter.get, hv]

theorem decay_step_and_nonneg_w :
    ((0 : Int) < 2 ∧ decayLoopIteration 2 = 1) ∧
    decayLoopIteration 0 = 0 ∧
    (0 : Int) ≤ 1 :=
  ⟨⟨by norm_num, (decay_step_and_nonneg 2).1 (by norm_num)⟩,
   (decay_step_and_nonneg 0).2.1 rfl,
   (decay_step_and_nonneg 1).2.2 (CounterReachable.inc CounterReachable.init)⟩

/-- C5 counterexample: the claim that the error channel has nonzero buffering
or that the push uses a non-blocking send policy is false — `New` creates the
channel with `make(chan error)` (capacity 0) and the push at logger.go:70 is a
plain blocking send. -/
theorem errorChannel_headroom_counterexample :
    ¬ (0 < (New none none).errorChannel.capacity ∨
       customHandler.errorPushPolicy = ChanSendPolicy.nonBlockingSelect) := by
  decide

/-- C5 amended: the error channel is unbuffered (capacity 0) and the push is a
plain blocking channel send, so a push can block the pushing sink goroutine
while the consumer is slow; record processing itself is not stalled, because
each push runs in a dedicated per-sink goroutine and `Handle`'s returned value
never depends on the pushes. -/
theorem errorChannel_unbuffered_blocking_push {H : Type}
    (writer : Option GoWriter) (targets : Option (List LogTarget))
    (ops : SlogHandlerOps H) (h : CustomHandler H) (ctx : Context) (r : Record) :
    (New writer targets).errorChannel.capacity = 0 ∧
    customHandler.errorPushPolicy = ChanSendPolicy.blocking ∧
    (customHandler.Handle ops h ctx r).result = ops.handle h.handler ctx r :=
  ⟨rfl, rfl, rfl⟩

/-- C6: the payload built for a record with attribute set `{k₁:v₁, k₂:v₂}`
(distinct keys, as record keys are unique) contains the keys `time`,
`message`, `level`, `timestamp`, `logtype`, `source`, `k₁`, `k₂`, with `k₁`
and `k₂` mapped to the attribute values `v₁` and `v₂` without loss. -/
theorem sendLog_payload_roundtrip (resolve : Nat → String × Int)
    (t : Int) (msg : String) (lvl : Level) (pc : Nat)
    (k₁ k₂ : String) (v₁ v₂ : JValue) (hne : k₁ ≠ k₂) :
    ((newRelicLogger.sendLogFields resolve ⟨t, msg, lvl, pc, [(k₁, v₁), (k₂, v₂)]⟩) "time").isSome ∧
    ((newRelicLogger.sendLogFields resolve ⟨t, msg, lvl, pc, [(k₁, v₁), (k₂, v₂)]⟩) "message").isSome ∧
    ((newRelicLogger.sendLogFields resolve ⟨t, msg, lvl, pc, [(k₁, v₁), (k₂, v₂)]⟩) "level").isSome ∧
    ((newRelicLogger.sendLogFields resolve ⟨t, msg, lvl, pc, [(k₁, v₁), (k₂, v₂)]⟩) "timestamp").isSome ∧
    ((newRelicLogger.sendLogFields resolve ⟨t, msg, lvl, pc, [(k₁, v₁), (k₂, v₂)]⟩) "logtype").isSome ∧
    ((newRelicLogger.sendLogFields resolve ⟨t, msg, lvl, pc, [(k₁, v₁), (k₂, v₂)]⟩) "source").isSome ∧
    (newRelicLogger.sendLogFields resolve ⟨t, msg, lvl, pc, [(k₁, v₁), (k₂, v₂)]⟩) k₁ = some v₁ ∧
    (newRelicLogger.sendLogFields resolve ⟨t, msg, lvl, pc, [(k₁, v₁), (k₂, v₂)]⟩) k₂ = some v₂ := by
  refine ⟨?_, ?_, ?_, ?_, ?_, ?_, ?_, ?_⟩ <;>
    simp only [newRelicLogger.sendLogFields, List.foldl_cons, List.foldl_nil] <;>
    simp [mapSet, emptyMap, hne, Ne.symm hne] <;>
    split_ifs <;> simp

theorem sendLog_payload_roundtrip_w :
    "k1" ≠ "k2" ∧
    (newRelicLogger.sendLogFields (fun _ => ("main.run", 42))
      ⟨7, "hello", 0, 9, [("k1", JValue.vStr "a"), ("k2", JValue.vInt 5)]⟩) "k1" =
      some (JValue.vStr "a") ∧
    (newRelicLogger.sendLogFields (fun _ => ("main.run", 42))
      ⟨7, "hello", 0, 9, [("k1", JValue.vStr "a"), ("k2", JValue.vInt 5)]⟩) "k2" =
      some (JValue.vInt 5) :=
  ⟨by decide,
   (sendLog_payload_roundtrip (fun _ => ("main.run", 42)) 7 "hello" 0 9
      "k1" "k2" (JValue.vStr "a") (JValue.vInt 5) (by decide)).2.2.2.2.2.2.1,
   (sendLog_payload_roundtrip (fun _ => ("main.run", 42)) 7 "hello" 0 9
      "k1" "k2" (JValue.vStr "a") (JValue.vInt 5) (by decide)).2.2.2.2.2.2.2⟩

/-- C7: `SendLog` succeeds (returns nil) iff request construction and
serialization succeed and the HTTP response status is exactly
`http.StatusAccepted` (202); any transport error or any other status code
yields an error. -/
theorem sendLog_error_iff (resolve : Nat → String × Int) (env : HttpEnv) (r : Record) :
    (newRelicLogger.SendLog resolve env r).2 = none ↔
      env.reqErr = none ∧ env.marshalErr = none ∧
      env.doResult = Except.ok httpStatusAccepted := by
  rcases env with ⟨reqErr, marshalErr, doResult⟩
  unfold newRelicLogger.SendLog newRelicLogger.sendLogResult
  cases reqErr <;> cases marshalErr <;> cases doResult <;> simp_all

/-- C8: `WithAttrs` and `WithGroup` each return a new handler whose base is
the derived base handler and whose target list and error channel are exactly
`h`'s own; the embedding is pure, so `h` itself is unchanged by construction. -/
theorem withAttrs_withGroup_frame {H : Type} (ops : SlogHandlerOps H)
    (h : CustomHandler H) (attrs : List Attr) (name : String) :
    (customHandler.WithAttrs ops h attrs).handler = ops.withAttrs h.handler attrs ∧
    (customHandler.WithAttrs ops h attrs).logTargets = h.logTargets ∧
    (customHandler.WithAttrs ops h attrs).errorChannel = h.errorChannel ∧
    (customHandler.WithGroup ops h name).handler = ops.withGroup h.handler name ∧
    (customHandler.WithGroup ops h name).logTargets = h.logTargets ∧
    (customHandler.WithGroup ops h name).errorChannel = h.errorChannel :=
  ⟨rfl, rfl, rfl, rfl, rfl, rfl⟩

/-- C9: for a logger constructed with zero sinks (Go passes a nil variadic
slice), `Handle` spawns no sink-send task, pushes nothing onto the error
channel, and writes the record to the base handler only, returning its
result. -/
theorem zero_sinks_no_error_traffic (ops : SlogHandlerOps JSONHandler)
    (writer : Option GoWriter) (ctx : Context) (r : Record) :
    (customHandler.Handle ops (New writer none) ctx r).sinkTaskSends = [] ∧
    (customHandler.Handle ops (New writer none) ctx r).pushedErrors = [] ∧
    (customHandler.Handle ops (New writer none) ctx r).baseCalls = [(ctx, r)] ∧
    (customHandler.Handle ops (New writer none) ctx r).result =
      ops.handle (New writer none).handler ctx r :=
  ⟨rfl, rfl, rfl, rfl⟩

/-- C10: attributes are merged into the payload after the reserved fields are
set, so an attribute whose key is one of the reserved payload keys overrides
the reserved field's value (the last attribute with that key wins). -/
theorem sendLog_attr_overrides_reserved (resolve : Nat → String × Int)
    (t : Int) (msg : String) (lvl : Level) (pc : Nat)
    (pre post : List Attr) (k : String) (v : JValue)
    (hk : k ∈ reservedPayloadKeys) (hpost : ∀ a ∈ post, a.1 ≠ k) :
    (newRelicLogger.sendLogFields resolve ⟨t, msg, lvl, pc, pre ++ (k, v) :: post⟩) k =
      some v := by
  clear hk
  unfold newRelicLogger.sendLogFields
  simp only [List.foldl_append, List.foldl_cons]
  rw [foldl_mapSet_no_key post _ k hpost]
  exact mapSet_same _ _ _

theorem sendLog_attr_overrides_reserved_w :
    "logtype" ∈ reservedPayloadKeys ∧
    (newRelicLogger.sendLogFields (fun _ => ("main.run", 42))
      ⟨0, "m", 0, 0, [("logtype", JValue.vStr "custom")]⟩) "logtype" =
      some (JValue.vStr "custom") :=
  ⟨by decide,
   sendLog_attr_overrides_reserved (fun _ => ("main.run", 42)) 0 "m" 0 0
     [] [] "logtype" (JValue.vStr "custom") (by decide) (by simp)⟩
